import Mathlib

/-!
Shallow embedding of `src/beyondtrust_client.py` (BeyondTrust Password Safe
client): the token cache with its refresh/retry loop (`_refresh_token`,
`get_valid_token`), session sign-in (`_get_auth_headers`) and secret lookup
(`get_secrets`).

Modelling conventions:
* Timestamps are `Int` seconds; `datetime.now(timezone.utc)` is an explicit
  `now : Int` parameter, one instant per public call.
* Python `None` is `Option.none`; Python truthiness of the cached token
  (`not self._access_token`) is `tokenTruthy` (empty string is falsy).
* The HTTP transport is an environment: the response of the token endpoint per
  attempt, a sign-in response, a folders response and a secrets response.
* Exceptions are `Except` values over an explicit error type `PyError`
  mirroring the exception classes of the source and of `requests`.
-/

namespace BeyondTrust

/-- The two-field token cache of the client:
`self._access_token : Optional[str]` and `self._token_expiry : Optional[datetime]`
(lines 62-63 of the source). -/
structure CacheState where
  access_token : Option String
  token_expiry : Option Int
  deriving Repr, DecidableEq

/-- Shape of the `expires_in` field of a 2xx token response JSON body:
a number, absent (the code then defaults to 3600), or present with a
non-numeric type, in which case `expires_in - 30` raises `TypeError`. -/
inductive ExpiresIn where
  | num (n : Int)
  | absent
  | malformed
  deriving Repr, DecidableEq

/-- One answer of the transport for one POST to `token_url`:
a transport failure (network error, or non-2xx caught by `raise_for_status`),
a 2xx JSON body without `access_token` (so `data["access_token"]` raises
`KeyError`), or a 2xx body with `access_token` and an `expires_in` shape. -/
inductive TokenResponse where
  | transportError (msg : String)
  | jsonNoAccessToken
  | ok (access_token : String) (e : ExpiresIn)
  deriving Repr, DecidableEq

/-- The underlying error of a failed refresh attempt (the `e` caught by the
`except Exception as e` of `_refresh_token`). -/
inductive AttemptError where
  | transport (msg : String)
  | missingAccessToken
  | badExpiresIn
  deriving Repr, DecidableEq

/-- The error, if any, a given `TokenResponse` produces in one attempt. -/
def attemptErrorOf : TokenResponse → Option AttemptError
  | .transportError m => some (.transport m)
  | .jsonNoAccessToken => some .missingAccessToken
  | .ok _ .malformed => some .badExpiresIn
  | .ok _ (.num _) => none
  | .ok _ .absent => none

/-- `true` when the response makes the attempt fail. -/
def responseFails (r : TokenResponse) : Bool :=
  (attemptErrorOf r).isSome

/-- `data.get("expires_in", 3600)` (line 95) followed by the `expires_in - 30`
of line 97: the numeric value actually used, or `none` when the arithmetic
raises `TypeError` on a non-numeric field. -/
def pyExpiresIn : ExpiresIn → Option Int
  | .num n => some n
  | .absent => some 3600
  | .malformed => none

/-- One iteration of the `try` body of `_refresh_token` (lines 90-100), from
cache state `st` at instant `now` given the transport answer `r`. Returns the
cache state after the iteration and either the returned token or the caught
exception. Mirrors the statement order of the source: on a 2xx body with
`access_token`, line 94 assigns `self._access_token` first; the expiry
assignment of line 97 only happens if `expires_in - 30` does not raise, so a
malformed `expires_in` leaves the new token paired with the old expiry. -/
def attemptRefresh (st : CacheState) (now : Int) (r : TokenResponse) :
    CacheState × Except AttemptError String :=
  match r with
  | .transportError m => (st, .error (.transport m))
  | .jsonNoAccessToken => (st, .error .missingAccessToken)
  | .ok tok e =>
    match pyExpiresIn e with
    | some n => (⟨some tok, some (now + (n - 30))⟩, .ok tok)
    | none => (⟨some tok, st.token_expiry⟩, .error .badExpiresIn)

/-- Outcome of `_refresh_token`: the returned token, the raised
`AuthError` (carrying the retry count of the message
`"Failed to acquire token after {self.retries} attempts: {e}"` and the last
underlying error), or the implicit `None` return of a `for` loop that was
never entered (only possible when `retries = 0`). -/
inductive RefreshOutcome where
  | token (t : String)
  | authError (attempts : Nat) (last : AttemptError)
  | noneReturn
  deriving Repr, DecidableEq

/-- Result of a `_refresh_token` call: final cache state, outcome, the list of
`time.sleep` delays performed (in order), and how many attempts were made. -/
structure RefreshResult where
  state : CacheState
  outcome : RefreshOutcome
  sleeps : List Nat
  attemptsMade : Nat
  deriving Repr, DecidableEq

/-- The retry loop of `_refresh_token` (lines 88-104):
`for attempt in range(retries)`, iterating over the list of transport answers
of the successive attempts (the loop consumes exactly one answer per
iteration, so `refreshToken` passes the `retries`-element list
`[responses 0, ..., responses (retries-1)]`). On a failing attempt that is not
the last (`attempt == retries - 1`), the code sleeps `backoff * (attempt + 1)`
and retries; on the last it raises `AuthError` carrying `retries` and the last
underlying error. -/
def refreshLoop (retries backoff : Nat) (now : Int) :
    List TokenResponse → (attempt : Nat) → CacheState → List Nat → Nat →
      RefreshResult
  | [], _, st, sleeps, made => ⟨st, .noneReturn, sleeps, made⟩
  | r :: rest, attempt, st, sleeps, made =>
    let step := attemptRefresh st now r
    match step.2 with
    | .ok tok => ⟨step.1, .token tok, sleeps, made + 1⟩
    | .error e =>
      if attempt = retries - 1 then
        ⟨step.1, .authError retries e, sleeps, made + 1⟩
      else
        refreshLoop retries backoff now rest (attempt + 1) step.1
          (sleeps ++ [backoff * (attempt + 1)]) (made + 1)

/-- `_refresh_token` with the client settings `retries`, `backoff`
(`self.retries = 3`, `self.backoff = 2` in `__init__`). -/
def refreshToken (retries backoff : Nat) (responses : Nat → TokenResponse)
    (now : Int) (st : CacheState) : RefreshResult :=
  refreshLoop retries backoff now ((List.range retries).map responses) 0 st [] 0

/-- `self.retries = 3` (line 67). -/
def RETRIES : Nat := 3

/-- `self.backoff = 2` (line 68). -/
def BACKOFF : Nat := 2

/-- Python truthiness of the cached token: `not self._access_token` is true
for `None` and for the empty string. -/
def tokenTruthy : Option String → Bool
  | none => false
  | some s => !(s == "")

/-- Result of a `get_valid_token` call: final cache state, outcome, whether
`_refresh_token` was invoked, and the sleeps/attempts of that refresh (empty
and zero on the cached path, which performs no network activity). -/
structure GetTokenResult where
  state : CacheState
  outcome : RefreshOutcome
  refreshed : Bool
  sleeps : List Nat
  attemptsMade : Nat
  deriving Repr, DecidableEq

/-- `is_expired = self._token_expiry is None or datetime.now(timezone.utc) >= self._token_expiry`
(line 109). -/
def isExpired (st : CacheState) (now : Int) : Bool :=
  match st.token_expiry with
  | none => true
  | some e => decide (e ≤ now)

/-- `get_valid_token` (lines 106-112). The whole body runs under
`self._token_lock`, so one call is one atomic step; `now` is the instant of
the `datetime.now(timezone.utc)` of the staleness check (and of the refresh,
in this single-instant model). Refresh when
`not self._access_token or is_expired`, else return the cached token. -/
def get_valid_token (retries backoff : Nat) (responses : Nat → TokenResponse)
    (now : Int) (st : CacheState) : GetTokenResult :=
  if !tokenTruthy st.access_token || isExpired st now then
    let r := refreshToken retries backoff responses now st
    ⟨r.state, r.outcome, true, r.sleeps, r.attemptsMade⟩
  else
    ⟨st, .token (st.access_token.getD ""), false, [], 0⟩

/-- The exceptions the client can raise, mirroring both the class hierarchy of
the source (`BeyondTrustError` > `AuthError`, `ResourceNotFoundError`) and the
exceptions of collaborators that escape it (`requests.RequestException`,
including the `HTTPError` of `raise_for_status`, and the bare `KeyError` of a
dict subscript). Payloads are kept structurally rather than as the formatted
message strings. -/
inductive PyError where
  /-- `requests.RequestException` (network failure or `HTTPError`), with the
  description of the underlying failure. -/
  | requestException (msg : String)
  /-- `AuthError(f"Failed to acquire token after {retries} attempts: {last}")`
  raised by `_refresh_token`. -/
  | authErrorRetries (retries : Nat) (last : AttemptError)
  /-- `AuthError("Authentication successful but ASP.NET_SessionId was not returned.")`
  raised by `_get_auth_headers`. -/
  | authErrorNoSession
  /-- `ResourceNotFoundError(f"Folder {folderName} not found in BeyondTrust.")`. -/
  | resourceNotFound (folderName : String)
  /-- `BeyondTrustError(f"Failed to retrieve secrets: {cause}")` raised by the
  `except requests.RequestException` clause of `get_secrets`. -/
  | beyondTrustSecrets (cause : String)
  /-- Bare `KeyError(key)` from an unguarded dict subscript. -/
  | keyError (key : String)
  deriving Repr, DecidableEq

/-- Membership in the `BeyondTrustError` exception hierarchy declared by the
source (`BeyondTrustError` and its subclasses `AuthError`,
`ResourceNotFoundError`). `requests.RequestException` and `KeyError` are
outside it. -/
def isBeyondTrustError : PyError → Bool
  | .authErrorRetries _ _ => true
  | .authErrorNoSession => true
  | .resourceNotFound _ => true
  | .beyondTrustSecrets _ => true
  | .requestException _ => false
  | .keyError _ => false

/-- `AuthError` instances specifically. -/
def isAuthError : PyError → Bool
  | .authErrorRetries _ _ => true
  | .authErrorNoSession => true
  | _ => false

/-- `requests.RequestException` instances (what the `except` clause of
`get_secrets` catches). -/
def isRequestException : PyError → Bool
  | .requestException _ => true
  | _ => false

/-- A transport answer for one GET/POST whose body matters: either the request
itself fails (`requests` raises), or a response arrives with a status code and
a parsed JSON body. `raise_for_status` raises `HTTPError` exactly when
`400 ≤ status`. -/
inductive HttpResult (α : Type) where
  | networkFailure (msg : String)
  | response (status : Nat) (body : α)
  deriving Repr, DecidableEq

/-- The sign-in POST response body carries no JSON the code reads; only the
status and the optional `ASP.NET_SessionId` cookie matter. -/
structure SignInBody where
  sessionCookie : Option String
  deriving Repr, DecidableEq

/-- One element of the `/Folders` response list: a JSON object read through
`f.get("Name")`, `folder.get("Id")`, `folder.get("ID")`, each possibly
absent. -/
structure FolderEntry where
  Name : Option String
  Id : Option Int
  ID : Option Int
  deriving Repr, DecidableEq

/-- One element of the `/Folders/{id}/secrets` response list:
`item["Title"]` (unguarded subscript) and `item.get("Password", "")`. -/
structure SecretItem where
  Title : Option String
  Password : Option String
  deriving Repr, DecidableEq

/-- The transport environment of one `get_secrets` call: answers of the token
endpoint per refresh attempt, of the sign-in POST, of the folders GET, and of
the secrets GET as a function of the folder id used in the URL (`none` is
Python `None` interpolated into the URL). -/
structure Env where
  tokenResponses : Nat → TokenResponse
  signIn : HttpResult SignInBody
  folders : HttpResult (List FolderEntry)
  secrets : Option Int → HttpResult (List SecretItem)

/-- `resp.raise_for_status()` modelled on a response: `HTTPError` for status
400-599, otherwise the body. -/
def raiseForStatus {α : Type} : HttpResult α → Except PyError α
  | .networkFailure m => .error (.requestException m)
  | .response status body =>
    if 400 ≤ status then .error (.requestException ("HTTP " ++ toString status))
    else .ok body

/-- The composed header set returned by `_get_auth_headers` (lines 128-132). -/
structure AuthHeaders where
  authorization : String
  cookie : String
  accept : String
  deriving Repr, DecidableEq

/-- The sign-in POST of `_get_auth_headers` (lines 117-132), given the token
string: `raise_for_status`, read the `ASP.NET_SessionId` cookie (falsy —
absent or empty — means `AuthError`), and build the headers. -/
def signInStep (signIn : HttpResult SignInBody) (t : String) :
    Except PyError AuthHeaders :=
  match raiseForStatus signIn with
  | .error e => .error e
  | .ok body =>
    match body.sessionCookie with
    | none => .error .authErrorNoSession
    | some sid =>
      if sid = "" then .error .authErrorNoSession
      else
        .ok ⟨"Bearer " ++ t, "ASP.NET_SessionId=" ++ sid, "application/json"⟩

/-- `_get_auth_headers` (lines 114-132): get a valid token, then perform the
sign-in POST. Returns the cache state as mutated by the token step together
with the result. A `noneReturn` token (unreachable for `retries ≥ 1`) would be
Python `None`, interpolated by the f-string as the text `"None"`. -/
def getAuthHeaders (env : Env) (now : Int) (st : CacheState) :
    CacheState × Except PyError AuthHeaders :=
  let g := get_valid_token RETRIES BACKOFF env.tokenResponses now st
  match g.outcome with
  | .authError a e => (g.state, .error (.authErrorRetries a e))
  | .noneReturn => (g.state, signInStep env.signIn "None")
  | .token t => (g.state, signInStep env.signIn t)

/-- `next((f for f in folder_resp.json() if f.get("Name") == folder_name), None)`
(line 143): the first entry whose `Name` field equals `folder_name`, by exact
(case-sensitive) string equality; `f.get("Name")` is `None` when the key is
absent and never equals the string `folder_name`. -/
def findFolder (folder_name : String) : List FolderEntry → Option FolderEntry
  | [] => none
  | f :: rest =>
    if f.Name = some folder_name then some f else findFolder folder_name rest

/-- `folder.get("Id") or folder.get("ID")` (line 148): Python `or` yields the
first operand when truthy (an int other than 0), else the second operand
verbatim. -/
def folderId (f : FolderEntry) : Option Int :=
  match f.Id with
  | some n => if n ≠ 0 then some n else f.ID
  | none => f.ID

/-- One `k : v` step of a Python dict comprehension: inserting an existing key
overwrites its value in place, a new key is appended, so insertion order is
kept and the last occurrence of a key wins. -/
def pyDictInsert : List (String × String) → String → String →
    List (String × String)
  | [], k, v => [(k, v)]
  | (k2, v2) :: rest, k, v =>
    if k2 = k then (k2, v) :: rest else (k2, v2) :: pyDictInsert rest k v

/-- `{item["Title"]: item.get("Password", "") for item in secrets_resp.json()}`
(line 152), items processed in order: an item without `Title` raises
`KeyError("Title")`; a missing `Password` defaults to the empty string. -/
def buildSecretMap : List SecretItem → List (String × String) →
    Except PyError (List (String × String))
  | [], acc => .ok acc
  | item :: rest, acc =>
    match item.Title with
    | none => .error (.keyError "Title")
    | some t => buildSecretMap rest (pyDictInsert acc t (item.Password.getD ""))

deriving instance DecidableEq for Except

/-- Python dict lookup on the assoc-list model of a dict. -/
def dictGet (m : List (String × String)) (k : String) : Option String :=
  (m.find? (fun p => p.1 = k)).map (·.2)

/-- Result of a `get_secrets` call: final cache state, the returned dict or
raised exception, and whether the secrets endpoint
(`{base_url}/Folders/{id}/secrets`) was called. -/
structure GetSecretsResult where
  state : CacheState
  result : Except PyError (List (String × String))
  secretsCalled : Bool
  deriving Repr, DecidableEq

/-- The `try` body of `get_secrets` (lines 137-152): headers, folders GET and
`raise_for_status`, first-match folder scan (`if not folder` is `folder is
None` here, since a matched entry is a non-empty dict), folder id, secrets GET
and `raise_for_status`, dict comprehension. -/
def getSecretsBody (env : Env) (now : Int) (st : CacheState)
    (folder_name : String) : GetSecretsResult :=
  match getAuthHeaders env now st with
  | (st2, .error e) => ⟨st2, .error e, false⟩
  | (st2, .ok _headers) =>
    match raiseForStatus env.folders with
    | .error e => ⟨st2, .error e, false⟩
    | .ok folderList =>
      match findFolder folder_name folderList with
      | none => ⟨st2, .error (.resourceNotFound folder_name), false⟩
      | some folder =>
        match raiseForStatus (env.secrets (folderId folder)) with
        | .error e => ⟨st2, .error e, true⟩
        | .ok items => ⟨st2, buildSecretMap items [], true⟩

/-- `get_secrets` (lines 134-156): run the body; the
`except requests.RequestException` clause re-raises any `RequestException` as
`BeyondTrustError(f"Failed to retrieve secrets: {e}")`, while `AuthError`,
`ResourceNotFoundError` and `KeyError` pass through unchanged. -/
def get_secrets (env : Env) (now : Int) (st : CacheState)
    (folder_name : String) : GetSecretsResult :=
  let r := getSecretsBody env now st folder_name
  match r.result with
  | .error (.requestException m) =>
    ⟨r.state, .error (.beyondTrustSecrets m), r.secretsCalled⟩
  | _ => r

/-- A transport environment whose token endpoint always succeeds, sign-in
succeeds with a cookie, one folder `{Name: "Finance", Id: 42}`, and a secrets
list under folder id 42. Used as the running concrete example. -/
def envFinance : Env :=
  ⟨fun _ => .ok "tok" (.num 3600),
    .response 200 ⟨some "sid"⟩,
    .response 200 [⟨some "Finance", some 42, none⟩],
    fun i =>
      if i = some 42 then
        .response 200 [⟨some "db", some "p1"⟩, ⟨some "api", some ""⟩]
      else .networkFailure "wrong folder id"⟩

/-- `runCalls N st` runs `N` successive `get_valid_token` calls against the
same transport and instant. The body of `get_valid_token` holds
`self._token_lock` throughout, so any interleaving of `N` concurrent callers
is some serialization of `N` atomic calls; with a fixed transport and instant
every serialization is this one. Returns the final cache state, the number of
`_refresh_token` invocations performed across the calls, and each caller's
outcome in order. -/
def runCalls (retries backoff : Nat) (responses : Nat → TokenResponse)
    (now : Int) : Nat → CacheState → CacheState × Nat × List RefreshOutcome
  | 0, st => (st, 0, [])
  | n + 1, st =>
    let r := get_valid_token retries backoff responses now st
    let k := runCalls retries backoff responses now n r.state
    (k.1, (if r.refreshed then 1 else 0) + k.2.1, r.outcome :: k.2.2)

/-- A transport for the token endpoint that fails on the first two attempts
and succeeds on the third. -/
def failTwice : Nat → TokenResponse := fun i =>
  if i ≤ 1 then .transportError "boom" else .ok "t" (.num 3600)

/-- A transport environment whose sign-in POST answers with status 500. -/
def env500 : Env :=
  ⟨fun _ => .ok "tok" (.num 3600), .response 500 ⟨none⟩, .response 200 [],
    fun _ => .networkFailure "unused"⟩

/-- Like `envFinance`, but the secrets list under folder id 42 contains an
item without a `Title` field. -/
def envNoTitle : Env :=
  ⟨fun _ => .ok "tok" (.num 3600), .response 200 ⟨some "sid"⟩,
    .response 200 [⟨some "Finance", some 42, none⟩],
    fun i =>
      if i = some 42 then .response 200 [⟨none, some "x"⟩]
      else .networkFailure "wrong folder id"⟩

/-! Helper lemmas -/

theorem attemptRefresh_ok_char (st : CacheState) (now : Int) (r : TokenResponse)
    (t : String) (h : (attemptRefresh st now r).2 = .ok t) :
    ∃ e v, r = .ok t e ∧ pyExpiresIn e = some v ∧
      (attemptRefresh st now r).1 = ⟨some t, some (now + (v - 30))⟩ := by
  cases r with
  | transportError m => simp [attemptRefresh] at h
  | jsonNoAccessToken => simp [attemptRefresh] at h
  | ok tok e =>
    cases e with
    | num n =>
      simp only [attemptRefresh, pyExpiresIn] at h ⊢
      obtain rfl : tok = t := by simpa using h
      exact ⟨.num n, n, rfl, rfl, rfl⟩
    | absent =>
      simp only [attemptRefresh, pyExpiresIn] at h ⊢
      obtain rfl : tok = t := by simpa using h
      exact ⟨.absent, 3600, rfl, rfl, rfl⟩
    | malformed => simp [attemptRefresh, pyExpiresIn] at h

theorem attemptRefresh_error_char (st : CacheState) (now : Int)
    (r : TokenResponse) (e : AttemptError) (h : attemptErrorOf r = some e) :
    (attemptRefresh st now r).2 = .error e := by
  cases r with
  | transportError m => simp_all [attemptErrorOf, attemptRefresh]
  | jsonNoAccessToken => simp_all [attemptErrorOf, attemptRefresh]
  | ok tok e2 => cases e2 <;> simp_all [attemptErrorOf, attemptRefresh, pyExpiresIn]

theorem refreshLoop_token_char (backoff : Nat) (now : Int) :
    ∀ (rs : List TokenResponse) (retries attempt : Nat) (st : CacheState)
      (sleeps : List Nat) (made : Nat) (t : String),
      (refreshLoop retries backoff now rs attempt st sleeps made).outcome =
        .token t →
      ∃ r ∈ rs, ∃ e v, r = .ok t e ∧ pyExpiresIn e = some v ∧
        (refreshLoop retries backoff now rs attempt st sleeps made).state =
          ⟨some t, some (now + (v - 30))⟩ := by
  intro rs
  induction rs with
  | nil => intro retries attempt st sleeps made t h; simp [refreshLoop] at h
  | cons r rest ih =>
    intro retries attempt st sleeps made t h
    cases hstep : (attemptRefresh st now r).2 with
    | ok tok =>
      simp only [refreshLoop, hstep] at h ⊢
      obtain rfl : tok = t := by simpa using h
      obtain ⟨e, v, hr, hv, hst⟩ := attemptRefresh_ok_char st now r tok hstep
      exact ⟨r, List.mem_cons_self r rest, e, v, hr, hv, hst⟩
    | error e2 =>
      by_cases hat : attempt = retries - 1
      · simp [refreshLoop, hstep, hat] at h
      · simp only [refreshLoop, hstep, if_neg hat] at h ⊢
        obtain ⟨r2, hmem, e, v, hr, hv, hst⟩ := ih retries (attempt + 1) _ _ _ t h
        exact ⟨r2, List.mem_cons_of_mem r hmem, e, v, hr, hv, hst⟩

theorem refreshToken_token_char (retries backoff : Nat)
    (responses : Nat → TokenResponse) (now : Int) (st : CacheState) (t : String)
    (h : (refreshToken retries backoff responses now st).outcome = .token t) :
    ∃ k, k < retries ∧ ∃ e v, responses k = .ok t e ∧ pyExpiresIn e = some v ∧
      (refreshToken retries backoff responses now st).state =
        ⟨some t, some (now + (v - 30))⟩ := by
  unfold refreshToken at h ⊢
  obtain ⟨r, hmem, e, v, hr, hv, hst⟩ :=
    refreshLoop_token_char backoff now _ retries 0 st [] 0 t h
  obtain ⟨k, hk, rfl⟩ := List.mem_map.1 hmem
  exact ⟨k, List.mem_range.1 hk, e, v, hr, hv, hst⟩

theorem refreshToken_three_allfail (responses : Nat → TokenResponse)
    (now : Int) (st : CacheState) (e0 e1 e2 : AttemptError)
    (h0 : attemptErrorOf (responses 0) = some e0)
    (h1 : attemptErrorOf (responses 1) = some e1)
    (h2 : attemptErrorOf (responses 2) = some e2) :
    (refreshToken 3 2 responses now st).outcome = .authError 3 e2 ∧
    (refreshToken 3 2 responses now st).attemptsMade = 3 ∧
    (refreshToken 3 2 responses now st).sleeps = [2, 4] := by
  have a0 : ∀ s, (attemptRefresh s now (responses 0)).2 = .error e0 :=
    fun s => attemptRefresh_error_char s now _ e0 h0
  have a1 : ∀ s, (attemptRefresh s now (responses 1)).2 = .error e1 :=
    fun s => attemptRefresh_error_char s now _ e1 h1
  have a2 : ∀ s, (attemptRefresh s now (responses 2)).2 = .error e2 :=
    fun s => attemptRefresh_error_char s now _ e2 h2
  have hr : List.range 3 = [0, 1, 2] := rfl
  simp [refreshToken, hr, refreshLoop, a0, a1, a2]

theorem get_valid_token_refreshed_val (retries backoff : Nat)
    (responses : Nat → TokenResponse) (now : Int) (st : CacheState) :
    (get_valid_token retries backoff responses now st).refreshed =
      (!tokenTruthy st.access_token || isExpired st now) := by
  simp only [get_valid_token]
  split <;> simp_all

theorem get_valid_token_refreshed_eq (retries backoff : Nat)
    (responses : Nat → TokenResponse) (now : Int) (st : CacheState)
    (h : (get_valid_token retries backoff responses now st).refreshed = true) :
    get_valid_token retries backoff responses now st =
      ⟨(refreshToken retries backoff responses now st).state,
        (refreshToken retries backoff responses now st).outcome, true,
        (refreshToken retries backoff responses now st).sleeps,
        (refreshToken retries backoff responses now st).attemptsMade⟩ := by
  rw [get_valid_token_refreshed_val] at h
  simp only [get_valid_token, h, if_true]

theorem get_valid_token_cached_eq (retries backoff : Nat)
    (responses : Nat → TokenResponse) (now : Int) (st : CacheState)
    (h : (get_valid_token retries backoff responses now st).refreshed = false) :
    get_valid_token retries backoff responses now st =
      ⟨st, .token (st.access_token.getD ""), false, [], 0⟩ := by
  rw [get_valid_token_refreshed_val] at h
  simp [get_valid_token, h]

theorem isExpired_false_iff (st : CacheState) (now : Int) :
    isExpired st now = false ↔ ∃ e, st.token_expiry = some e ∧ now < e := by
  cases hexp : st.token_expiry with
  | none => simp [isExpired, hexp]
  | some e =>
    simp only [isExpired, hexp, decide_eq_false_iff_not, not_le,
      Option.some.injEq]
    constructor
    · intro h; exact ⟨e, rfl, h⟩
    · rintro ⟨e2, rfl, h⟩; exact h

theorem get_valid_token_not_refreshed_iff (retries backoff : Nat)
    (responses : Nat → TokenResponse) (now : Int) (st : CacheState) :
    (get_valid_token retries backoff responses now st).refreshed = false ↔
      tokenTruthy st.access_token = true ∧
        ∃ e, st.token_expiry = some e ∧ now < e := by
  rw [get_valid_token_refreshed_val, ← isExpired_false_iff st now]
  cases tokenTruthy st.access_token <;> cases isExpired st now <;> simp

theorem runCalls_valid_state (retries backoff : Nat)
    (responses : Nat → TokenResponse) (now : Int) (t : String) (e : Int)
    (ht : ¬t = "") (he : now < e) :
    ∀ n, runCalls retries backoff responses now n ⟨some t, some e⟩ =
      (⟨some t, some e⟩, 0, List.replicate n (.token t)) := by
  intro n
  induction n with
  | zero => rfl
  | succ m ih =>
    have hrf : (get_valid_token retries backoff responses now
        ⟨some t, some e⟩).refreshed = false := by
      rw [get_valid_token_refreshed_val]
      have h1 : tokenTruthy (some t) = true := by simp [tokenTruthy, ht]
      have h2 : isExpired ⟨some t, some e⟩ now = false := by
        simp only [isExpired, decide_eq_false_iff_not, not_le]
        exact he
      simp [h1, h2]
    have hc := get_valid_token_cached_eq retries backoff responses now
      ⟨some t, some e⟩ hrf
    simp [runCalls, hc, ih, List.replicate_succ]

/-! Claims -/

/-- Claim C3: given a transport that fails on every attempt, `_refresh_token`
raises `AuthError` carrying the last underlying error after exactly 3
attempts, never a fourth, and a `get_valid_token` caller that triggers the
refresh propagates that `AuthError` with still exactly 3 attempts made — no
further automatic retry. -/
theorem refresh_always_fail_raises_after_three (responses : Nat → TokenResponse)
    (now : Int) (st : CacheState)
    (h : ∀ i, responseFails (responses i) = true) :
    ∃ e, attemptErrorOf (responses 2) = some e ∧
      (refreshToken 3 2 responses now st).outcome = .authError 3 e ∧
      (refreshToken 3 2 responses now st).attemptsMade = 3 ∧
      ∀ st2, (get_valid_token 3 2 responses now st2).refreshed = true →
        (get_valid_token 3 2 responses now st2).outcome = .authError 3 e ∧
        (get_valid_token 3 2 responses now st2).attemptsMade = 3 := by
  have h0 : (attemptErrorOf (responses 0)).isSome = true := h 0
  have h1 : (attemptErrorOf (responses 1)).isSome = true := h 1
  have h2 : (attemptErrorOf (responses 2)).isSome = true := h 2
  obtain ⟨e0, he0⟩ := Option.isSome_iff_exists.mp h0
  obtain ⟨e1, he1⟩ := Option.isSome_iff_exists.mp h1
  obtain ⟨e2, he2⟩ := Option.isSome_iff_exists.mp h2
  obtain ⟨ho, hm, _⟩ := refreshToken_three_allfail responses now st e0 e1 e2
    he0 he1 he2
  refine ⟨e2, he2, ho, hm, ?_⟩
  intro st2 hrf
  rw [get_valid_token_refreshed_eq 3 2 responses now st2 hrf]
  obtain ⟨ho2, hm2, _⟩ := refreshToken_three_allfail responses now st2 e0 e1 e2
    he0 he1 he2
  exact ⟨ho2, hm2⟩

/-- Witness for C3 at a transport that always fails with a network error,
starting from an empty cache at instant 0. -/
theorem refresh_always_fail_raises_after_three_witness :
    (refreshToken 3 2 (fun _ => .transportError "boom") 0
      ⟨none, none⟩).outcome = .authError 3 (.transport "boom") ∧
    (refreshToken 3 2 (fun _ => .transportError "boom") 0
      ⟨none, none⟩).attemptsMade = 3 ∧
    (get_valid_token 3 2 (fun _ => .transportError "boom") 0
      ⟨none, none⟩).attemptsMade = 3 := by
  obtain ⟨e, he, ho, hm, hg⟩ := refresh_always_fail_raises_after_three
    (fun _ => .transportError "boom") 0 ⟨none, none⟩ (fun _ => rfl)
  obtain rfl : AttemptError.transport "boom" = e := by
    simpa [attemptErrorOf] using he
  exact ⟨ho, hm, (hg ⟨none, none⟩ (by decide)).2⟩

/-- Claim C4: whenever `_refresh_token` succeeds, the succeeding attempt's
response determines the stored expiry: `expires_in = E` gives `now + E - 30`
exactly, and an absent `expires_in` defaults to 3600, giving `now + 3570`. -/
theorem refresh_success_expiry_math (responses : Nat → TokenResponse)
    (now : Int) (st : CacheState) (t : String)
    (h : (refreshToken 3 2 responses now st).outcome = .token t) :
    ∃ k, k < 3 ∧
      ((∃ E, responses k = .ok t (.num E) ∧
          (refreshToken 3 2 responses now st).state =
            ⟨some t, some (now + E - 30)⟩) ∨
        (responses k = .ok t .absent ∧
          (refreshToken 3 2 responses now st).state =
            ⟨some t, some (now + 3570)⟩)) := by
  obtain ⟨k, hk, e, v, hr, hv, hst⟩ := refreshToken_token_char 3 2 responses
    now st t h
  refine ⟨k, hk, ?_⟩
  cases e with
  | num n =>
    left
    obtain rfl : v = n := by simpa [pyExpiresIn] using hv.symm
    refine ⟨v, hr, ?_⟩
    rw [hst, show now + (v - 30) = now + v - 30 from by ring]
  | absent =>
    right
    obtain rfl : v = 3600 := by simpa [pyExpiresIn] using hv.symm
    refine ⟨hr, ?_⟩
    rw [hst]
    norm_num
  | malformed => simp [pyExpiresIn] at hv

/-- Witness for C4 at a transport that succeeds immediately with
`expires_in = 3600` at instant 0: the stored expiry is `0 + 3600 - 30`. -/
theorem refresh_success_expiry_math_witness :
    (refreshToken 3 2 (fun _ => .ok "t" (.num 3600)) 0 ⟨none, none⟩).state =
      ⟨some "t", some (0 + 3600 - 30)⟩ := by
  obtain ⟨k, hk, hcase⟩ := refresh_success_expiry_math
    (fun _ => .ok "t" (.num 3600)) 0 ⟨none, none⟩ "t" (by decide)
  rcases hcase with ⟨E, hkE, hstate⟩ | ⟨hkA, hstate⟩
  · obtain rfl : (3600 : Int) = E := by simpa using hkE
    exact hstate
  · simp at hkA

/-- Claim C5: a transport that fails twice then succeeds yields success on the
third attempt, with the two recorded backoff delays between consecutive
attempts equal to `base × attempt_number`, i.e. `[2 * 1, 2 * 2] = [2, 4]`
(a third delay of 6 would only follow a third failure, which raises instead of
sleeping). -/
theorem refresh_backoff_two_failures_then_success
    (responses : Nat → TokenResponse) (now : Int) (st : CacheState)
    (t : String) (e : ExpiresIn) (v : Int)
    (h0 : responseFails (responses 0) = true)
    (h1 : responseFails (responses 1) = true)
    (h2 : responses 2 = .ok t e) (hv : pyExpiresIn e = some v) :
    (refreshToken 3 2 responses now st).outcome = .token t ∧
    (refreshToken 3 2 responses now st).attemptsMade = 3 ∧
    (refreshToken 3 2 responses now st).sleeps =
      (List.range 2).map (fun j => BACKOFF * (j + 1)) ∧
    2 ≤ (refreshToken 3 2 responses now st).sleeps.length := by
  have h0' : (attemptErrorOf (responses 0)).isSome = true := h0
  have h1' : (attemptErrorOf (responses 1)).isSome = true := h1
  obtain ⟨e0, he0⟩ := Option.isSome_iff_exists.mp h0'
  obtain ⟨e1, he1⟩ := Option.isSome_iff_exists.mp h1'
  have a0 : ∀ s, (attemptRefresh s now (responses 0)).2 = .error e0 :=
    fun s => attemptRefresh_error_char s now _ e0 he0
  have a1 : ∀ s, (attemptRefresh s now (responses 1)).2 = .error e1 :=
    fun s => attemptRefresh_error_char s now _ e1 he1
  have a2 : ∀ s, attemptRefresh s now (responses 2) =
      (⟨some t, some (now + (v - 30))⟩, .ok t) := by
    intro s
    rw [h2]
    simp [attemptRefresh, hv]
  have hr : List.range 3 = [0, 1, 2] := rfl
  refine ⟨?_, ?_, ?_, ?_⟩ <;>
    simp [refreshToken, hr, refreshLoop, a0, a1, a2, BACKOFF]
  decide

/-- Witness for C5 at the transport `failTwice` from an empty cache at
instant 0. -/
theorem refresh_backoff_two_failures_then_success_witness :
    (refreshToken 3 2 failTwice 0 ⟨none, none⟩).outcome = .token "t" ∧
    (refreshToken 3 2 failTwice 0 ⟨none, none⟩).attemptsMade = 3 ∧
    (refreshToken 3 2 failTwice 0 ⟨none, none⟩).sleeps =
      (List.range 2).map (fun j => BACKOFF * (j + 1)) ∧
    2 ≤ (refreshToken 3 2 failTwice 0 ⟨none, none⟩).sleeps.length := by
  exact refresh_backoff_two_failures_then_success failTwice 0 ⟨none, none⟩
    "t" (.num 3600) 3600 (by decide) (by decide) (by decide) (by decide)

/-- Claim C6 (code bug): a failing `_refresh_token` call is claimed to leave
both cached fields untouched, but a 2xx response whose `access_token` parses
while `expires_in` is non-numeric overwrites `self._access_token` (line 94)
before the expiry computation of line 97 raises; after the retries are
exhausted the cache holds the new token paired with the old expiry. -/
theorem refresh_partial_update_on_failure :
    refreshToken 3 2 (fun _ => .ok "new" .malformed) 0
        ⟨some "old", some 1000⟩ =
      ⟨⟨some "new", some 1000⟩, .authError 3 .badExpiresIn, [2, 4], 3⟩ := by
  decide

/-- Claim C1 counterexample: from an empty cache at instant 0, a refresh whose
response carries `expires_in = 10` stores expiry `0 + 10 - 30 = -20` and
`get_valid_token` returns that token anyway — a token whose buffered expiry
(-20) has already passed at the moment of return (0). -/
theorem get_valid_token_stale_serve_cex :
    (get_valid_token 3 2 (fun _ => .ok "t" (.num 10)) 0
      ⟨none, none⟩).outcome = .token "t" ∧
    (get_valid_token 3 2 (fun _ => .ok "t" (.num 10)) 0
      ⟨none, none⟩).state.token_expiry = some (-20) ∧
    ((-20 : Int) ≤ 0) := by decide

/-- Claim C1 (amended): the cached token is returned without any refresh
exactly when a non-empty token is present and the current time is strictly
before the stored expiry; otherwise `_refresh_token` is invoked and its result
returned. The no-stale-serve guarantee holds provided every successful token
response carries `expires_in > 30`: then any returned token's stored buffered
expiry is strictly in the future at the moment of return. -/
theorem get_valid_token_spec (responses : Nat → TokenResponse) (now : Int)
    (st : CacheState) :
    ((get_valid_token 3 2 responses now st).refreshed = false ↔
      tokenTruthy st.access_token = true ∧
        ∃ e, st.token_expiry = some e ∧ now < e) ∧
    ((get_valid_token 3 2 responses now st).refreshed = false →
      get_valid_token 3 2 responses now st =
        ⟨st, .token (st.access_token.getD ""), false, [], 0⟩) ∧
    ((get_valid_token 3 2 responses now st).refreshed = true →
      get_valid_token 3 2 responses now st =
        ⟨(refreshToken 3 2 responses now st).state,
          (refreshToken 3 2 responses now st).outcome, true,
          (refreshToken 3 2 responses now st).sleeps,
          (refreshToken 3 2 responses now st).attemptsMade⟩) ∧
    ((∀ i t2 n, responses i = .ok t2 (.num n) → 30 < n) →
      ∀ t2, (get_valid_token 3 2 responses now st).outcome = .token t2 →
        ∃ e2, (get_valid_token 3 2 responses now st).state.token_expiry =
            some e2 ∧ now < e2) := by
  refine ⟨get_valid_token_not_refreshed_iff 3 2 responses now st,
    get_valid_token_cached_eq 3 2 responses now st,
    get_valid_token_refreshed_eq 3 2 responses now st, ?_⟩
  intro hbig t2 hout
  cases hrf : (get_valid_token 3 2 responses now st).refreshed with
  | false =>
    obtain ⟨htt, e, hexp, hlt⟩ :=
      (get_valid_token_not_refreshed_iff 3 2 responses now st).mp hrf
    rw [get_valid_token_cached_eq 3 2 responses now st hrf]
    exact ⟨e, hexp, hlt⟩
  | true =>
    rw [get_valid_token_refreshed_eq 3 2 responses now st hrf] at hout ⊢
    obtain ⟨k, hk, e, v, hr, hv, hst⟩ := refreshToken_token_char 3 2 responses
      now st t2 hout
    cases e with
    | num n =>
      have hn := hbig k t2 n hr
      obtain rfl : v = n := by simpa [pyExpiresIn] using hv.symm
      exact ⟨now + (v - 30), by rw [hst], by omega⟩
    | absent =>
      obtain rfl : v = 3600 := by simpa [pyExpiresIn] using hv.symm
      exact ⟨now + (3600 - 30), by rw [hst], by omega⟩
    | malformed => simp [pyExpiresIn] at hv

/-- Witness for C1 at a transport that answers with `expires_in = 3600` from
an empty cache at instant 0: the served token's stored expiry is strictly
future. -/
theorem get_valid_token_spec_witness :
    (get_valid_token 3 2 (fun _ => TokenResponse.ok "tok" (.num 3600)) 0
        ⟨none, none⟩).state.token_expiry = some 3570 ∧ (0 : Int) < 3570 := by
  obtain ⟨e2, he, hlt⟩ := (get_valid_token_spec
      (fun _ => .ok "tok" (.num 3600)) 0 ⟨none, none⟩).2.2.2
    (by
      intro i t2 n hn
      injection hn with h1 h2
      injection h2 with h3
      omega) "tok" (by decide)
  have hev : (get_valid_token 3 2 (fun _ => TokenResponse.ok "tok" (.num 3600))
      0 ⟨none, none⟩).state.token_expiry = some 3570 := by decide
  rw [hev] at he
  obtain rfl : (3570 : Int) = e2 := by simpa using he
  exact ⟨hev, hlt⟩

/-- Claim C2: the body of `get_valid_token` holds `self._token_lock`
throughout the check-and-possibly-refresh sequence, so N concurrent callers
serialize into N atomic calls (`runCalls`); starting from an empty cache, any
N ≥ 1 such calls perform exactly one underlying refresh, and every caller —
the refresher and the ones that observe the already-refreshed cache — gets the
refreshed token. -/
theorem concurrent_callers_single_refresh (responses : Nat → TokenResponse)
    (now : Int) (t : String) (E : Int) (N : Nat)
    (h0 : responses 0 = .ok t (.num E)) (ht : ¬t = "") (hE : 30 < E)
    (hN : 1 ≤ N) :
    (runCalls 3 2 responses now N ⟨none, none⟩).2.1 = 1 ∧
    (runCalls 3 2 responses now N ⟨none, none⟩).2.2 =
      List.replicate N (.token t) := by
  obtain ⟨m, rfl⟩ : ∃ m, N = m + 1 := ⟨N - 1, (Nat.succ_pred_eq_of_pos hN).symm⟩
  have hfirst : get_valid_token 3 2 responses now ⟨none, none⟩ =
      ⟨⟨some t, some (now + (E - 30))⟩, .token t, true, [], 1⟩ := by
    have hrefTrue :
        (get_valid_token 3 2 responses now ⟨none, none⟩).refreshed = true := by
      rw [get_valid_token_refreshed_val]
      simp [tokenTruthy]
    rw [get_valid_token_refreshed_eq 3 2 responses now ⟨none, none⟩ hrefTrue]
    have a0 : attemptRefresh ⟨none, none⟩ now (responses 0) =
        (⟨some t, some (now + (E - 30))⟩, .ok t) := by
      rw [h0]
      simp [attemptRefresh, pyExpiresIn]
    have hr : List.range 3 = [0, 1, 2] := rfl
    have hrt : refreshToken 3 2 responses now ⟨none, none⟩ =
        ⟨⟨some t, some (now + (E - 30))⟩, .token t, [], 1⟩ := by
      simp [refreshToken, hr, refreshLoop, a0]
    rw [hrt]
  have hrest := runCalls_valid_state 3 2 responses now t (now + (E - 30)) ht
    (by omega)
  constructor <;> simp [runCalls, hfirst, hrest m, List.replicate_succ]

/-- Witness for C2 at 10 callers against a transport answering
`expires_in = 3600`, from an empty cache at instant 0. -/
theorem concurrent_callers_single_refresh_witness :
    (runCalls 3 2 (fun _ => .ok "tok" (.num 3600)) 0 10 ⟨none, none⟩).2.1 =
      1 ∧
    (runCalls 3 2 (fun _ => .ok "tok" (.num 3600)) 0 10 ⟨none, none⟩).2.2 =
      List.replicate 10 (.token "tok") := by
  exact concurrent_callers_single_refresh (fun _ => .ok "tok" (.num 3600)) 0
    "tok" 3600 10 rfl (by decide) (by decide) (by decide)

theorem findFolder_eq_find (fname : String) (l : List FolderEntry) :
    findFolder fname l = l.find? (fun f => f.Name = some fname) := by
  induction l with
  | nil => rfl
  | cons f rest ih =>
    by_cases h : f.Name = some fname
    · simp [findFolder, List.find?_cons, h]
    · simp [findFolder, List.find?_cons, h, ih]

theorem dictGet_cons (x : String × String) (xs : List (String × String))
    (k2 : String) :
    dictGet (x :: xs) k2 = if x.1 = k2 then some x.2 else dictGet xs k2 := by
  by_cases h : x.1 = k2 <;> simp [dictGet, List.find?_cons, h]

theorem dictGet_pyDictInsert (m : List (String × String)) (k v k2 : String) :
    dictGet (pyDictInsert m k v) k2 =
      if k2 = k then some v else dictGet m k2 := by
  induction m with
  | nil =>
    by_cases h : k2 = k
    · subst h
      simp [pyDictInsert, dictGet_cons]
    · simp [pyDictInsert, dictGet_cons, h, Ne.symm h, dictGet]
  | cons p rest ih =>
    by_cases hpk : p.1 = k
    · by_cases h2 : k2 = k
      · subst h2
        simp [pyDictInsert, hpk, dictGet_cons]
      · have hk2 : ¬k = k2 := fun hh => h2 hh.symm
        simp [pyDictInsert, hpk, dictGet_cons, hk2, h2]
    · by_cases hk2p : p.1 = k2
      · have h2 : ¬k2 = k := fun hh => hpk (hk2p.trans hh)
        simp [pyDictInsert, hpk, dictGet_cons, hk2p, h2]
      · simp [pyDictInsert, hpk, dictGet_cons, hk2p, ih]

theorem buildSecretMap_ok_preserves (ttl : String) :
    ∀ (items : List SecretItem) (acc m : List (String × String)),
      buildSecretMap items acc = .ok m →
      (∀ it ∈ items, it.Title ≠ some ttl) →
      dictGet m ttl = dictGet acc ttl := by
  intro items
  induction items with
  | nil =>
    intro acc m h _
    obtain rfl : acc = m := by simpa [buildSecretMap] using h
    rfl
  | cons it rest ih =>
    intro acc m h hno
    cases hT : it.Title with
    | none => simp [buildSecretMap, hT] at h
    | some t2 =>
      simp only [buildSecretMap, hT] at h
      have ht2 : ¬ttl = t2 := by
        intro hh
        exact hno it (List.mem_cons_self _ _) (by rw [hT, hh])
      have hrec := ih _ m h (fun x hx => hno x (List.mem_cons_of_mem _ hx))
      rw [hrec, dictGet_pyDictInsert]
      simp [ht2]

theorem buildSecretMap_last_wins (ttl : String) (pw : Option String) :
    ∀ (pre post : List SecretItem) (acc m : List (String × String)),
      buildSecretMap (pre ++ ⟨some ttl, pw⟩ :: post) acc = .ok m →
      (∀ it ∈ post, it.Title ≠ some ttl) →
      dictGet m ttl = some (pw.getD "") := by
  intro pre
  induction pre with
  | nil =>
    intro post acc m h hno
    simp only [List.nil_append, buildSecretMap] at h
    rw [buildSecretMap_ok_preserves ttl post _ m h hno, dictGet_pyDictInsert]
    simp
  | cons it rest ih =>
    intro post acc m h hno
    cases hT : it.Title with
    | none => simp [buildSecretMap, hT] at h
    | some t2 =>
      simp only [List.cons_append, buildSecretMap, hT] at h
      exact ih post _ m h hno

theorem buildSecretMap_missing_title :
    ∀ (items : List SecretItem) (acc : List (String × String)),
      (∃ it ∈ items, it.Title = none) →
      buildSecretMap items acc = .error (.keyError "Title") := by
  intro items
  induction items with
  | nil =>
    rintro acc ⟨it, hmem, _⟩
    simp at hmem
  | cons x rest ih =>
    rintro acc ⟨it, hmem, hT⟩
    cases hx : x.Title with
    | none => simp [buildSecretMap, hx]
    | some t2 =>
      simp only [buildSecretMap, hx]
      apply ih
      rcases List.mem_cons.mp hmem with rfl | hmem2
      · rw [hx] at hT
        exact absurd hT (by simp)
      · exact ⟨it, hmem2, hT⟩

/-- Claim C7 counterexample: a sign-in POST answering 500 does not surface as
`AuthError`: `get_secrets` raises the generic
`BeyondTrustError("Failed to retrieve secrets: ...")` wrap of the transport
`HTTPError` instead. -/
theorem signin_non2xx_not_autherror_cex :
    (get_secrets env500 0 ⟨none, none⟩ "Finance").result =
      .error (.beyondTrustSecrets "HTTP 500") ∧
    isAuthError (.beyondTrustSecrets "HTTP 500") = false := by decide

/-- Claim C7 (amended): when the sign-in POST returns a non-2xx status (a
4xx/5xx caught by `raise_for_status`), `_get_auth_headers` propagates the raw
transport `HTTPError` (a `requests.RequestException`), and `get_secrets`
re-raises it wrapped as the generic `BeyondTrustError`, not as `AuthError`. -/
theorem signin_non2xx_wrapped_as_generic (env : Env) (now : Int)
    (st : CacheState) (fname : String) (status : Nat) (body : SignInBody)
    (t : String)
    (hs : env.signIn = .response status body) (h4 : 400 ≤ status)
    (ht : (get_valid_token RETRIES BACKOFF env.tokenResponses now st).outcome =
      .token t) :
    (getAuthHeaders env now st).2 =
      .error (.requestException ("HTTP " ++ toString status)) ∧
    (get_secrets env now st fname).result =
      .error (.beyondTrustSecrets ("HTTP " ++ toString status)) ∧
    isAuthError (.beyondTrustSecrets ("HTTP " ++ toString status)) = false ∧
    isBeyondTrustError (.beyondTrustSecrets ("HTTP " ++ toString status)) =
      true := by
  have hga : (getAuthHeaders env now st).2 =
      .error (.requestException ("HTTP " ++ toString status)) := by
    simp only [getAuthHeaders, ht]
    simp [signInStep, raiseForStatus, hs, h4]
  refine ⟨hga, ?_, rfl, rfl⟩
  rcases hpair : getAuthHeaders env now st with ⟨st2, res⟩
  rw [hpair] at hga
  obtain rfl : res = .error (.requestException ("HTTP " ++ toString status)) :=
    hga
  simp [get_secrets, getSecretsBody, hpair]

/-- Witness for C7 at `env500` from an empty cache at instant 0. -/
theorem signin_non2xx_wrapped_as_generic_witness :
    (getAuthHeaders env500 0 ⟨none, none⟩).2 =
      .error (.requestException ("HTTP " ++ toString 500)) ∧
    (get_secrets env500 0 ⟨none, none⟩ "Finance").result =
      .error (.beyondTrustSecrets ("HTTP " ++ toString 500)) ∧
    isAuthError (.beyondTrustSecrets ("HTTP " ++ toString 500)) = false ∧
    isBeyondTrustError (.beyondTrustSecrets ("HTTP " ++ toString 500)) =
      true := by
  exact signin_non2xx_wrapped_as_generic env500 0 ⟨none, none⟩ "Finance" 500
    ⟨none⟩ "tok" rfl (by omega) (by decide)

/-- Claim C8: the folder list is scanned for the first entry whose `Name`
equals `folder_name` exactly (`findFolder` is `List.find?` on case-sensitive
string equality of the name field); when no entry matches, `get_secrets`
raises `ResourceNotFoundError` identifying the folder name and never calls the
secrets endpoint. -/
theorem folder_not_found_spec (env : Env) (now : Int) (st : CacheState)
    (fname : String) (hdrs : AuthHeaders) (status : Nat)
    (folderList : List FolderEntry)
    (hh : (getAuthHeaders env now st).2 = .ok hdrs)
    (hf : env.folders = .response status folderList) (hst : status < 400)
    (hm : findFolder fname folderList = none) :
    (get_secrets env now st fname).result = .error (.resourceNotFound fname) ∧
    (get_secrets env now st fname).secretsCalled = false ∧
    ∀ (l : List FolderEntry) (g : String),
      findFolder g l = l.find? (fun f => f.Name = some g) := by
  have hlt : ¬400 ≤ status := by omega
  rcases hpair : getAuthHeaders env now st with ⟨st2, res⟩
  rw [hpair] at hh
  obtain rfl : res = .ok hdrs := hh
  refine ⟨?_, ?_, fun l g => findFolder_eq_find g l⟩ <;>
    simp [get_secrets, getSecretsBody, hpair, raiseForStatus, hf, hlt, hm]

/-- Witness for C8 at `envFinance` with the absent folder name "Missing". -/
theorem folder_not_found_spec_witness :
    (get_secrets envFinance 0 ⟨none, none⟩ "Missing").result =
      .error (.resourceNotFound "Missing") ∧
    (get_secrets envFinance 0 ⟨none, none⟩ "Missing").secretsCalled =
      false := by
  obtain ⟨h1, h2, _⟩ := folder_not_found_spec envFinance 0 ⟨none, none⟩
    "Missing" ⟨"Bearer tok", "ASP.NET_SessionId=sid", "application/json"⟩ 200
    [⟨some "Finance", some 42, none⟩] (by decide) rfl (by decide) (by decide)
  exact ⟨h1, h2⟩

/-- Claim C9: `get_secrets` maps each secret item's title to its password,
a missing password defaulting to the empty string and the last item winning on
duplicate titles; on the concrete `envFinance` example it returns the dict
`{"db": "p1", "api": ""}` (keys in insertion order). -/
theorem get_secrets_map_spec :
    get_secrets envFinance 0 ⟨none, none⟩ "Finance" =
      ⟨⟨some "tok", some 3570⟩, .ok [("db", "p1"), ("api", "")], true⟩ ∧
    ∀ (pre post : List SecretItem) (ttl : String) (pw : Option String)
      (acc m : List (String × String)),
      buildSecretMap (pre ++ ⟨some ttl, pw⟩ :: post) acc = .ok m →
      (∀ it ∈ post, it.Title ≠ some ttl) →
      dictGet m ttl = some (pw.getD "") := by
  exact ⟨by decide, fun pre post ttl pw acc m h hno =>
    buildSecretMap_last_wins ttl pw pre post acc m h hno⟩

/-- Witness for C9: the item `{Title: "api"}` without a `Password` field, last
of its title, yields the empty string in the built map. -/
theorem get_secrets_map_spec_witness :
    dictGet [("db", "p1"), ("api", "")] "api" = some "" := by
  exact get_secrets_map_spec.2 [⟨some "db", some "p1"⟩] [] "api" none []
    [("db", "p1"), ("api", "")] (by decide) (by simp)

/-- Claim C10: a secrets item lacking a `Title` field makes `get_secrets`
raise a bare `KeyError("Title")` — outside both the `BeyondTrustError`
hierarchy and `requests.RequestException` (so the `except` clause does not
catch it), unlike the guarded `Password` lookup. -/
theorem missing_title_keyerror (env : Env) (now : Int) (st : CacheState)
    (fname : String) (hdrs : AuthHeaders) (status status2 : Nat)
    (folderList : List FolderEntry) (folder : FolderEntry)
    (items : List SecretItem)
    (hh : (getAuthHeaders env now st).2 = .ok hdrs)
    (hf : env.folders = .response status folderList) (hst : status < 400)
    (hfind : findFolder fname folderList = some folder)
    (hsec : env.secrets (folderId folder) = .response status2 items)
    (hs2 : status2 < 400)
    (hitem : ∃ it ∈ items, it.Title = none) :
    (get_secrets env now st fname).result = .error (.keyError "Title") ∧
    isBeyondTrustError (.keyError "Title") = false ∧
    isRequestException (.keyError "Title") = false := by
  have hb := buildSecretMap_missing_title items [] hitem
  have hlt : ¬400 ≤ status := by omega
  have hlt2 : ¬400 ≤ status2 := by omega
  rcases hpair : getAuthHeaders env now st with ⟨st2, res⟩
  rw [hpair] at hh
  obtain rfl : res = .ok hdrs := hh
  refine ⟨?_, rfl, rfl⟩
  simp [get_secrets, getSecretsBody, hpair, raiseForStatus, hf, hlt, hfind,
    hsec, hlt2, hb]

/-- Witness for C10 at `envNoTitle` from an empty cache at instant 0. -/
theorem missing_title_keyerror_witness :
    (get_secrets envNoTitle 0 ⟨none, none⟩ "Finance").result =
      .error (.keyError "Title") ∧
    isBeyondTrustError (.keyError "Title") = false ∧
    isRequestException (.keyError "Title") = false := by
  exact missing_title_keyerror envNoTitle 0 ⟨none, none⟩ "Finance"
    ⟨"Bearer tok", "ASP.NET_SessionId=sid", "application/json"⟩ 200 200
    [⟨some "Finance", some 42, none⟩] ⟨some "Finance", some 42, none⟩
    [⟨none, some "x"⟩] (by decide) rfl (by decide) (by decide) (by decide)
    (by decide) ⟨⟨none, some "x"⟩, by simp, rfl⟩

end BeyondTrust
